import Mathlib

/-!
Formal model of `src/stravatalk/app.py` (StravaTalk): the turn controller
`handle_query` (lines 103-218) and the history-replay loop of
`create_interface` (lines 56-97).

External collaborators that `app.py` merely calls (the query pipeline
`process_query`, the chart builder `create_visualization`, the chart
renderer `display_visualization`, pandas datetime coercion, and the debug
flag) are modelled as an explicit environment `Env` of possibly-failing
functions: `Except.error e` models a raised Python exception whose
`str(e)` is `e`.  Streamlit side effects (markdown, status writes, status
updates, warnings, errors, displayed charts) are modelled as a list of
`UIEvent` values emitted in source order.
-/

set_option autoImplicit false

namespace StravaTalk

/-- A scalar cell of a tabular result (models a pandas cell value; the
`datetime` constructor marks a value coerced to a temporal type). -/
inductive Cell where
  | str (s : String)
  | int (n : Int)
  | datetime (s : String)
deriving DecidableEq, Repr

/-- A tabular result: a pandas DataFrame as named columns plus rows. -/
structure DataFrame where
  cols : List String
  rows : List (List Cell)
deriving DecidableEq, Repr

/-- pandas `df.empty`: true when either axis has length zero. -/
def DataFrame.isEmpty (d : DataFrame) : Bool :=
  d.rows.isEmpty || d.cols.isEmpty

/-- pandas `df.to_dict("records")`: one key-value record per row.  The
records are fresh plain data: later mutation of the frame does not change
them. -/
def DataFrame.toRecords (d : DataFrame) : List (List (String × Cell)) :=
  d.rows.map (fun r => d.cols.zip r)

/-- pandas `df[c]`: the values of column `c` (empty when absent). -/
def DataFrame.getCol (d : DataFrame) (c : String) : List Cell :=
  match d.cols.findIdx? (fun s => s == c) with
  | some i => d.rows.filterMap (fun r => r.get? i)
  | none => []

/-- pandas `df[c] = vals`: replace the values of an existing column. -/
def DataFrame.setCol (d : DataFrame) (c : String) (vals : List Cell) : DataFrame :=
  match d.cols.findIdx? (fun s => s == c) with
  | some i => { cols := d.cols, rows := (d.rows.zip vals).map (fun p => p.1.set i p.2) }
  | none => d

/-- pandas `pd.DataFrame(records)`: rebuild a frame from a record list. -/
def recordsToDataFrame (records : List (List (String × Cell))) : DataFrame :=
  { cols := (records.headD []).map Prod.fst,
    rows := records.map (fun r => r.map Prod.snd) }

/-- Modelled from the spec: `QueryType` is imported from
`agents/classify_agent.py`, which is not among the provided sources; the
spec (section 3) gives the enum {SQL, VIZ, CONVERSATIONAL, ...}. -/
inductive QueryType where
  | SQL
  | VIZ
  | CONVERSATIONAL
deriving DecidableEq, Repr

/-- The classification object consumed opaquely by the controller. -/
structure ClassificationResult where
  query_type : QueryType
deriving DecidableEq, Repr

/-- A chart directive, as produced by the pipeline or stored in history:
`chart_type` is optional and read with default "line". -/
structure ChartInfo where
  x_column : String
  y_columns : List String
  chart_type : Option String
deriving DecidableEq, Repr

/-- The structured result of `process_query` (spec section 3): exactly the
keys `handle_query` reads. -/
structure PipelineResult where
  classification : ClassificationResult
  sql_query : Option String
  success : Bool
  data : Option DataFrame
  chart_info : Option ChartInfo
  response_text : String
deriving DecidableEq, Repr

inductive Role where
  | user
  | assistant
deriving DecidableEq, Repr

def Role.str : Role → String
  | .user => "user"
  | .assistant => "assistant"

/-- One chat-history entry (a Python dict in `app.py`; `none` models an
absent key). -/
structure ChatMessage where
  role : Role
  text : String
  sql_query : Option String := none
  chart_data : Option (List (List (String × Cell))) := none
  chart_info : Option ChartInfo := none
deriving DecidableEq, Repr

/-- Streamlit session state: the four keys `app.py` uses. `shared_memory`
and `agents` are opaque handles, modelled as numeric tokens. -/
structure SessionState where
  chat_history : List ChatMessage
  is_processing : Bool
  shared_memory : Nat
  agents : Nat × Nat × Nat
deriving DecidableEq, Repr

/-- The external collaborators of `app.py`, as possibly-failing functions.
Charts are opaque handles (`Nat`). -/
structure Env where
  process_query : (Nat × Nat × Nat) → String → Except String PipelineResult
  create_visualization : DataFrame → String → List String → String → Except String Nat
  display_visualization : Nat → Except String Unit
  to_datetime : List Cell → Except String (List Cell)
  is_debug_mode : Bool

instance instDecEqExcept {ε α : Type} [DecidableEq ε] [DecidableEq α] :
    DecidableEq (Except ε α) := fun a b =>
  match a, b with
  | Except.ok x, Except.ok y =>
    if h : x = y then isTrue (congrArg Except.ok h)
    else isFalse (fun h2 => h (Except.ok.inj h2))
  | Except.error x, Except.error y =>
    if h : x = y then isTrue (congrArg Except.error h)
    else isFalse (fun h2 => h (Except.error.inj h2))
  | Except.ok _, Except.error _ => isFalse (fun h2 => Except.noConfusion h2)
  | Except.error _, Except.ok _ => isFalse (fun h2 => Except.noConfusion h2)

/-- Observable UI effects of one run, in source order.  `queryTypeNote`,
`sqlHeader`, `sqlCode` and `rowCount` are the `status.write`/`status.code`
calls of lines 124, 128-129, 133; `debugNote` stands for the debug-only
display helpers. -/
inductive UIEvent where
  | markdown (role : String) (text : String)
  | queryTypeNote (qt : QueryType)
  | sqlHeader
  | sqlCode (sql : String)
  | rowCount (n : Nat)
  | statusUpdate (label : String) (state : String)
  | warning (msg : String)
  | errorMsg (msg : String)
  | chartDisplayed (c : Nat)
  | debugNote (tag : String)
deriving DecidableEq, Repr

/-- Modelled from the spec: `validate_chart_inputs` lives in
`visualization.py`, which is not among the provided sources.  Spec section
4.1: fails closed when data is absent/empty or `x_column` is missing
(empty y-list plus a message); filters `y_columns` to the existing columns
preserving order; the empty filtered set is invalid; never raises. -/
def validate_chart_inputs (data : Option DataFrame) (x_column : String)
    (y_columns : List String) : Bool × List String × String :=
  match data with
  | none => (false, [], "No data available for visualization")
  | some d =>
    if d.isEmpty then
      (false, [], "No data available for visualization")
    else if d.cols.contains x_column then
      let valid_y := y_columns.filter (fun c => d.cols.contains c)
      if valid_y.isEmpty then
        (false, [], "None of the requested y-columns exist in the data")
      else
        (true, valid_y, "")
    else
      (false, [], "Column " ++ x_column ++ " not found in data")

/-- ASCII lower-casing of one character (Python `str.lower` restricted to
the ASCII column names in play). -/
def lowerChar (c : Char) : Char :=
  if 65 ≤ c.toNat ∧ c.toNat ≤ 90 then Char.ofNat (c.toNat + 32) else c

/-- Python `s.lower()`. -/
def lowerString (s : String) : String :=
  String.mk (s.data.map lowerChar)

/-- Occurrence of `pat` as a contiguous run of `l`. -/
def charsContain (pat : List Char) : List Char → Bool
  | [] => pat.isEmpty
  | c :: cs => pat.isPrefixOf (c :: cs) || charsContain pat cs

/-- Python substring test `pat in s`. -/
def containsSubstring (s pat : String) : Bool :=
  charsContain pat.data s.data

/-- Lines 148-181 of app.py: build the assistant message from the pipeline
result.  Chart fields are attached only when `chart_info` is truthy, `data`
is present and non-empty, and the validator succeeds; `chart_data` is taken
by `to_dict("records")` BEFORE the date coercion of lines 174-180, which
mutates only `result["data"]` (returned as the second component, unused by
the rest of `handle_query`).  The bare `except: pass` around the coercion
is the `.error` branch. -/
def build_assistant_message (env : Env) (r : PipelineResult) :
    ChatMessage × PipelineResult :=
  let base : ChatMessage :=
    { role := Role.assistant, text := r.response_text, sql_query := r.sql_query }
  match r.chart_info, r.data with
  | some ci, some d =>
    if d.isEmpty then (base, r)
    else
      let x_column := ci.x_column
      let y_columns := ci.y_columns
      let chart_type := ci.chart_type.getD "line"
      let v := validate_chart_inputs (some d) x_column y_columns
      if v.1 then
        let msg : ChatMessage :=
          { base with
            chart_data := some d.toRecords,
            chart_info := some { x_column := x_column, y_columns := v.2.1,
                                 chart_type := some chart_type } }
        if containsSubstring (lowerString x_column) "date" ||
            containsSubstring (lowerString x_column) "time" then
          match env.to_datetime (d.getCol x_column) with
          | .ok vals => (msg, { r with data := some (d.setCol x_column vals) })
          | .error _ => (msg, r)
        else (msg, r)
      else (base, r)
  | _, _ => (base, r)

/-- Lines 118-146 of app.py: the status-area output for one turn. -/
def status_block (env : Env) (r : PipelineResult) : List UIEvent :=
  [UIEvent.queryTypeNote r.classification.query_type] ++
  (if r.classification.query_type = QueryType.SQL ∨
      r.classification.query_type = QueryType.VIZ then
    (match r.sql_query with
     | some sq => if sq = "" then [] else [UIEvent.sqlHeader, UIEvent.sqlCode sq]
     | none => []) ++
    (if r.success then
      (match r.data with
       | some d =>
         [UIEvent.rowCount d.rows.length] ++
         (if env.is_debug_mode then
           [UIEvent.debugNote "data"] ++
           (match r.chart_info with
            | some _ => [UIEvent.debugNote "chart"]
            | none => [])
          else [])
       | none => []) ++
      [UIEvent.statusUpdate "Query processed successfully!" "complete"]
     else [UIEvent.statusUpdate "Error executing query" "error"])
   else [UIEvent.statusUpdate "Query processed" "complete"])

/-- Lines 186-203 of app.py: the immediate render of the new assistant
message; any exception from chart construction or display is caught at
this call site and shown as an inline error. -/
def render_new_message (env : Env) (am : ChatMessage) (response_text : String) :
    List UIEvent :=
  [UIEvent.markdown "assistant" response_text] ++
  (match am.chart_data, am.chart_info with
   | some cd, some ci =>
     let d := recordsToDataFrame cd
     (match env.create_visualization d ci.x_column ci.y_columns
        (ci.chart_type.getD "line") with
      | .ok c =>
        (match env.display_visualization c with
         | .ok _ => [UIEvent.chartDisplayed c]
         | .error e =>
           [UIEvent.errorMsg ("Error displaying visualization: " ++ e)] ++
           (if env.is_debug_mode then [UIEvent.debugNote "render_error"] else []))
      | .error e =>
        [UIEvent.errorMsg ("Error displaying visualization: " ++ e)] ++
        (if env.is_debug_mode then [UIEvent.debugNote "render_error"] else []))
   | _, _ => [])

/-- Lines 103-218 of app.py: process one user query.  Returns the updated
session state and the UI events of the run.  The source's exception
structure is explicit: a falsy query returns immediately; a pipeline
exception reaches the outer `except`, which appends an assistant error
message; the `finally` (together with line 184 on the normal path) leaves
`is_processing = false` on every non-trivial path. -/
def handle_query (env : Env) (st : SessionState) (user_query : String) :
    SessionState × List UIEvent :=
  if user_query = "" then (st, [])
  else
    let history1 := st.chat_history ++ [{ role := Role.user, text := user_query }]
    match env.process_query st.agents user_query with
    | .error e =>
      let error_message := "Error: " ++ e
      ({ st with
          chat_history := history1 ++ [{ role := Role.assistant, text := error_message }],
          is_processing := false },
       [UIEvent.markdown "user" user_query, UIEvent.errorMsg error_message] ++
       (if env.is_debug_mode then [UIEvent.debugNote "traceback"] else []))
    | .ok r =>
      let p := build_assistant_message env r
      ({ st with
          chat_history := history1 ++ [p.1],
          is_processing := false },
       [UIEvent.markdown "user" user_query] ++ status_block env r ++
       render_new_message env p.1 r.response_text)

/-- Lines 56-97 of app.py: replay of one stored message.  While
`is_processing` is true the loop body `continue`s right after the text;
otherwise an assistant message carrying both chart fields is re-validated
and, on success, rebuilt and displayed, with any exception caught and shown
as an inline error and a failed validation shown as a warning. -/
def render_history_message (env : Env) (is_processing : Bool) (m : ChatMessage) :
    List UIEvent :=
  [UIEvent.markdown m.role.str m.text] ++
  (if is_processing then []
   else
     match m.role, m.chart_data, m.chart_info with
     | Role.assistant, some cd, some ci =>
       let d := recordsToDataFrame cd
       (if env.is_debug_mode then [UIEvent.debugNote "viz"] else []) ++
       (let v := validate_chart_inputs (some d) ci.x_column ci.y_columns
        if v.1 then
          match env.create_visualization d ci.x_column v.2.1 (ci.chart_type.getD "line") with
          | .ok c =>
            (match env.display_visualization c with
             | .ok _ => [UIEvent.chartDisplayed c]
             | .error e =>
               [UIEvent.errorMsg ("Error displaying visualization: " ++ e)] ++
               (if env.is_debug_mode then [UIEvent.debugNote "render_error"] else []))
          | .error e =>
            [UIEvent.errorMsg ("Error displaying visualization: " ++ e)] ++
            (if env.is_debug_mode then [UIEvent.debugNote "render_error"] else [])
        else [UIEvent.warning v.2.2])
     | _, _, _ => [])

/-- Lines 56-97 of app.py: the history-replay loop of `create_interface`
on one interface refresh. -/
def render_history (env : Env) (st : SessionState) : List UIEvent :=
  st.chat_history.flatMap (render_history_message env st.is_processing)

/-- The guard of lines 154-166 of app.py: chart fields are attached exactly
when `chart_info` is truthy, `data` is present and non-empty, and the
validator accepts `(data, x_column, y_columns)`. -/
def chart_condition (r : PipelineResult) : Bool :=
  match r.chart_info, r.data with
  | some ci, some d =>
    !d.isEmpty && (validate_chart_inputs (some d) ci.x_column ci.y_columns).1
  | _, _ => false

/-! ### Concrete fixtures (used by witnesses and counterexamples) -/

/-- A two-row activity table with a date column. -/
def dEx : DataFrame :=
  { cols := ["date", "distance"],
    rows := [[Cell.str "2024-01-01", Cell.int 5], [Cell.str "2024-01-02", Cell.int 7]] }

def ciEx : ChartInfo := { x_column := "date", y_columns := ["distance"], chart_type := none }

/-- A successful VIZ pipeline result with chartable data. -/
def rEx : PipelineResult :=
  { classification := { query_type := QueryType.VIZ },
    sql_query := some "SELECT 1",
    success := true,
    data := some dEx,
    chart_info := some ciEx,
    response_text := "Here are your runs" }

/-- An environment in which the pipeline returns `rEx`, chart building and
display succeed, and datetime coercion succeeds (turning string cells into
datetime cells). -/
def envEx : Env :=
  { process_query := fun _ _ => Except.ok rEx,
    create_visualization := fun _ _ _ _ => Except.ok 7,
    display_visualization := fun _ => Except.ok (),
    to_datetime := fun l => Except.ok (l.map (fun c =>
      match c with
      | Cell.str s => Cell.datetime s
      | c => c)),
    is_debug_mode := false }

def stEx : SessionState :=
  { chat_history := [], is_processing := false, shared_memory := 0, agents := (0, 1, 2) }

/-- A pipeline result with `success = false`, a conversational
classification, and chartable data. -/
def rC5 : PipelineResult :=
  { classification := { query_type := QueryType.CONVERSATIONAL },
    sql_query := none,
    success := false,
    data := some dEx,
    chart_info := some ciEx,
    response_text := "Sorry, could not run that" }

def envC5 : Env :=
  { process_query := fun _ _ => Except.ok rC5,
    create_visualization := fun _ _ _ _ => Except.ok 3,
    display_visualization := fun _ => Except.ok (),
    to_datetime := fun l => Except.ok l,
    is_debug_mode := false }

/-- A conversational pipeline result that nevertheless carries a SQL
string. -/
def rC6 : PipelineResult :=
  { classification := { query_type := QueryType.CONVERSATIONAL },
    sql_query := some "SELECT 1",
    success := true,
    data := none,
    chart_info := none,
    response_text := "hi" }

def envC6 : Env :=
  { process_query := fun _ _ => Except.ok rC6,
    create_visualization := fun _ _ _ _ => Except.ok 0,
    display_visualization := fun _ => Except.ok (),
    to_datetime := fun l => Except.ok l,
    is_debug_mode := false }

/-- An environment whose chart builder always raises. -/
def envRenderFail : Env :=
  { process_query := fun _ _ => Except.ok rEx,
    create_visualization := fun _ _ _ _ => Except.error "bad chart",
    display_visualization := fun _ => Except.ok (),
    to_datetime := fun l => Except.ok l,
    is_debug_mode := false }

/-- An environment whose pipeline call raises. -/
def envPipelineFail : Env :=
  { process_query := fun _ _ => Except.error "boom",
    create_visualization := fun _ _ _ _ => Except.ok 0,
    display_visualization := fun _ => Except.ok (),
    to_datetime := fun l => Except.ok l,
    is_debug_mode := false }

/-- The records of `dEx`, as stored in a persisted chart message. -/
def cdW : List (List (String × Cell)) :=
  [[("date", Cell.str "2024-01-01"), ("distance", Cell.int 5)],
   [("date", Cell.str "2024-01-02"), ("distance", Cell.int 7)]]

/-- The normalized chart directive stored alongside `cdW`. -/
def ciW : ChartInfo :=
  { x_column := "date", y_columns := ["distance"], chart_type := some "line" }

/-- A stored assistant message carrying both chart fields. -/
def msgW : ChatMessage :=
  { role := Role.assistant, text := "Here are your runs",
    sql_query := some "SELECT 1", chart_data := some cdW, chart_info := some ciW }

def stW : SessionState :=
  { chat_history := [msgW], is_processing := false, shared_memory := 0, agents := (0, 1, 2) }

def stWtrue : SessionState :=
  { chat_history := [msgW], is_processing := true, shared_memory := 0, agents := (0, 1, 2) }

/-! ### Helper lemmas -/

theorem handle_query_eq_ok (env : Env) (st : SessionState) (q : String)
    (r : PipelineResult) (hq : q ≠ "")
    (h : env.process_query st.agents q = Except.ok r) :
    handle_query env st q =
      ({ st with
          chat_history := st.chat_history ++
            [{ role := Role.user, text := q }, (build_assistant_message env r).1],
          is_processing := false },
       UIEvent.markdown "user" q ::
         (status_block env r ++
          render_new_message env (build_assistant_message env r).1 r.response_text)) := by
  simp [handle_query, hq, h]

theorem handle_query_eq_error (env : Env) (st : SessionState) (q : String)
    (e : String) (hq : q ≠ "")
    (h : env.process_query st.agents q = Except.error e) :
    handle_query env st q =
      ({ st with
          chat_history := st.chat_history ++
            [{ role := Role.user, text := q },
             { role := Role.assistant, text := "Error: " ++ e }],
          is_processing := false },
       [UIEvent.markdown "user" q, UIEvent.errorMsg ("Error: " ++ e)] ++
       (if env.is_debug_mode then [UIEvent.debugNote "traceback"] else [])) := by
  simp [handle_query, hq, h]

theorem build_assistant_message_base (env : Env) (r : PipelineResult) :
    (build_assistant_message env r).1.role = Role.assistant ∧
    (build_assistant_message env r).1.text = r.response_text ∧
    (build_assistant_message env r).1.sql_query = r.sql_query := by
  unfold build_assistant_message
  rcases r.chart_info with _ | ci <;> rcases r.data with _ | d <;> simp
  split
  · simp
  · split
    · split
      · split <;> simp
      · simp
    · simp

theorem build_assistant_message_chart_fields (env : Env) (r : PipelineResult) :
    ((build_assistant_message env r).1.chart_data.isSome = chart_condition r) ∧
    ((build_assistant_message env r).1.chart_info.isSome = chart_condition r) := by
  unfold build_assistant_message chart_condition
  rcases r.chart_info with _ | ci <;> rcases r.data with _ | d <;> simp
  split
  · simp_all
  · split
    · split
      · split <;> simp_all
      · simp_all
    · simp_all

theorem chart_condition_iff (r : PipelineResult) :
    chart_condition r = true ↔
      ∃ ci d, r.chart_info = some ci ∧ r.data = some d ∧ d.isEmpty = false ∧
        (validate_chart_inputs (some d) ci.x_column ci.y_columns).1 = true := by
  unfold chart_condition
  rcases r.chart_info with _ | ci <;> rcases r.data with _ | d <;> simp

theorem render_new_message_no_status_events (env : Env) (am : ChatMessage) (t : String) :
    ∀ x ∈ render_new_message env am t,
      (∀ l s, x ≠ UIEvent.statusUpdate l s) ∧ (∀ n, x ≠ UIEvent.rowCount n) ∧
      x ≠ UIEvent.sqlHeader ∧ (∀ sq, x ≠ UIEvent.sqlCode sq) := by
  obtain ⟨rl, tx, sq0, cdo, cio⟩ := am
  intro x hx
  rcases cdo with _ | cd <;> rcases cio with _ | ci <;>
    simp only [render_new_message, List.singleton_append, List.append_nil,
      List.mem_cons, List.not_mem_nil, or_false] at hx
  · subst hx; simp
  · subst hx; simp
  · subst hx; simp
  · rcases hx with rfl | hx
    · simp
    · rcases hc : env.create_visualization (recordsToDataFrame cd) ci.x_column ci.y_columns
          (ci.chart_type.getD "line") with e | c <;> simp only [hc] at hx
      · rcases hdbg : env.is_debug_mode <;> simp only [hdbg] at hx <;> simp at hx
        · subst hx; simp
        · rcases hx with rfl | rfl <;> simp
      · rcases hd : env.display_visualization c with e2 | u <;> simp only [hd] at hx
        · rcases hdbg : env.is_debug_mode <;> simp only [hdbg] at hx <;> simp at hx
          · subst hx; simp
          · rcases hx with rfl | rfl <;> simp
        · simp at hx; subst hx; simp

theorem status_block_of_not_sqlviz (env : Env) (r : PipelineResult)
    (h : ¬(r.classification.query_type = QueryType.SQL ∨
           r.classification.query_type = QueryType.VIZ)) :
    status_block env r =
      [UIEvent.queryTypeNote r.classification.query_type,
       UIEvent.statusUpdate "Query processed" "complete"] := by
  simp [status_block, h]

theorem status_block_of_failure (env : Env) (r : PipelineResult)
    (h : r.classification.query_type = QueryType.SQL ∨
         r.classification.query_type = QueryType.VIZ)
    (hs : r.success = false) :
    status_block env r =
      [UIEvent.queryTypeNote r.classification.query_type] ++
      (match r.sql_query with
       | some sq => if sq = "" then [] else [UIEvent.sqlHeader, UIEvent.sqlCode sq]
       | none => []) ++
      [UIEvent.statusUpdate "Error executing query" "error"] := by
  simp [status_block, h, hs]

theorem status_block_failure_shapes (env : Env) (r : PipelineResult)
    (hs : r.success = false) :
    ∀ x ∈ status_block env r,
      x = UIEvent.queryTypeNote r.classification.query_type ∨ x = UIEvent.sqlHeader ∨
      (∃ sq, x = UIEvent.sqlCode sq) ∨
      x = UIEvent.statusUpdate "Error executing query" "error" ∨
      x = UIEvent.statusUpdate "Query processed" "complete" := by
  intro x hx
  by_cases hqt : (r.classification.query_type = QueryType.SQL ∨
      r.classification.query_type = QueryType.VIZ)
  · rw [status_block_of_failure env r hqt hs] at hx
    rcases hsq : r.sql_query with _ | sq <;> rw [hsq] at hx
    · simp at hx
      tauto
    · by_cases hz : sq = "" <;> simp [hz] at hx <;> tauto
  · rw [status_block_of_not_sqlviz env r hqt] at hx
    simp at hx
    tauto

/-! ### Claim theorems -/

/-- C10: for the falsy (empty) user query, `handle_query` returns
immediately: no UI event is emitted and the session state — chat history,
processing flag, shared memory and agents — is returned unchanged; since
the result does not depend on `env` at all, no pipeline invocation is
observable. -/
theorem handle_query_empty_query_noop (env : Env) (st : SessionState) :
    handle_query env st "" = (st, []) := by
  simp [handle_query]

/-- C9: `chat_history` is append-only from the controller: on every
execution path of `handle_query` (empty query, normal completion, pipeline
exception) the final history is the initial history extended by a suffix,
so no existing entry is removed, reordered, or mutated. -/
theorem handle_query_append_only (env : Env) (st : SessionState) (q : String) :
    ∃ tail, (handle_query env st q).1.chat_history = st.chat_history ++ tail := by
  by_cases hq : q = ""
  · subst hq
    exact ⟨[], by simp [handle_query]⟩
  · cases h : env.process_query st.agents q with
    | error e =>
      exact ⟨_, by rw [handle_query_eq_error env st q e hq h]⟩
    | ok r =>
      exact ⟨_, by rw [handle_query_eq_ok env st q r hq h]⟩

/-- C2: every ChatMessage appended to `chat_history` by `handle_query` —
the user message, the normal assistant message, or the error-path
assistant message — has `chart_data` present exactly when `chart_info` is
present. -/
theorem handle_query_chart_pairing (env : Env) (st : SessionState) (q : String) :
    ∃ tail, (handle_query env st q).1.chat_history = st.chat_history ++ tail ∧
      ∀ m ∈ tail, m.chart_data.isSome = m.chart_info.isSome := by
  by_cases hq : q = ""
  · subst hq
    refine ⟨[], by simp [handle_query], ?_⟩
    intro m hm
    exact absurd hm (List.not_mem_nil m)
  · cases h : env.process_query st.agents q with
    | error e =>
      refine ⟨[{ role := Role.user, text := q },
               { role := Role.assistant, text := "Error: " ++ e }], ?_, ?_⟩
      · rw [handle_query_eq_error env st q e hq h]
      · intro m hm
        simp only [List.mem_cons, List.not_mem_nil, or_false] at hm
        rcases hm with rfl | rfl <;> rfl
    | ok r =>
      refine ⟨[{ role := Role.user, text := q }, (build_assistant_message env r).1], ?_, ?_⟩
      · rw [handle_query_eq_ok env st q r hq h]
      · intro m hm
        simp only [List.mem_cons, List.not_mem_nil, or_false] at hm
        rcases hm with rfl | rfl
        · rfl
        · have h2 := build_assistant_message_chart_fields env r
          rw [h2.1, h2.2]

/-- Witness for C2 at a concrete successful VIZ turn. -/
theorem handle_query_chart_pairing_witness :
    ∃ tail, (handle_query envEx stEx "show my runs").1.chat_history =
        stEx.chat_history ++ tail ∧
      ∀ m ∈ tail, m.chart_data.isSome = m.chart_info.isSome :=
  handle_query_chart_pairing envEx stEx "show my runs"

/-- C1: for a turn whose pipeline call returns a result `r`, the assistant
message persisted by `handle_query` carries chart fields exactly when
`r.chart_info` is present, `r.data` is present and non-empty, and the
chart input validator succeeds on `(data, x_column, y_columns)`; in every
other case it carries neither `chart_data` nor `chart_info`, so no partial
or invalid chart state is persisted. -/
theorem handle_query_chart_attach_iff (env : Env) (st : SessionState) (q : String)
    (r : PipelineResult) (hq : q ≠ "")
    (h : env.process_query st.agents q = Except.ok r) :
    ∃ am, (handle_query env st q).1.chat_history =
        st.chat_history ++ [{ role := Role.user, text := q }, am] ∧
      (am.chart_data.isSome = true ↔
        (∃ ci d, r.chart_info = some ci ∧ r.data = some d ∧ d.isEmpty = false ∧
          (validate_chart_inputs (some d) ci.x_column ci.y_columns).1 = true)) ∧
      (am.chart_info.isSome = true ↔
        (∃ ci d, r.chart_info = some ci ∧ r.data = some d ∧ d.isEmpty = false ∧
          (validate_chart_inputs (some d) ci.x_column ci.y_columns).1 = true)) := by
  refine ⟨(build_assistant_message env r).1, ?_, ?_, ?_⟩
  · rw [handle_query_eq_ok env st q r hq h]
  · rw [(build_assistant_message_chart_fields env r).1]
    exact chart_condition_iff r
  · rw [(build_assistant_message_chart_fields env r).2]
    exact chart_condition_iff r

/-- Witness for C1 at a concrete successful VIZ turn. -/
theorem handle_query_chart_attach_iff_witness :
    ∃ am, (handle_query envEx stEx "show my runs").1.chat_history =
        stEx.chat_history ++ [{ role := Role.user, text := "show my runs" }, am] ∧
      (am.chart_data.isSome = true ↔
        (∃ ci d, rEx.chart_info = some ci ∧ rEx.data = some d ∧ d.isEmpty = false ∧
          (validate_chart_inputs (some d) ci.x_column ci.y_columns).1 = true)) ∧
      (am.chart_info.isSome = true ↔
        (∃ ci d, rEx.chart_info = some ci ∧ rEx.data = some d ∧ d.isEmpty = false ∧
          (validate_chart_inputs (some d) ci.x_column ci.y_columns).1 = true)) :=
  handle_query_chart_attach_iff envEx stEx "show my runs" rEx (by decide) rfl

/-- C3: for any non-empty query, no exception escapes `handle_query` (the
model is a total function covering the try/except/finally structure of
lines 108-218), `is_processing` is false after the call returns on every
path, and every outcome leaves a visible human-readable message: a
pipeline exception `e` emits the assistant error text, and a returned
result has its response text rendered. -/
theorem handle_query_cleanup (env : Env) (st : SessionState) (q : String)
    (hq : q ≠ "") :
    (handle_query env st q).1.is_processing = false ∧
    (∀ e, env.process_query st.agents q = Except.error e →
      UIEvent.errorMsg ("Error: " ++ e) ∈ (handle_query env st q).2) ∧
    (∀ r, env.process_query st.agents q = Except.ok r →
      UIEvent.markdown "assistant" r.response_text ∈ (handle_query env st q).2) := by
  cases h : env.process_query st.agents q with
  | error e =>
    rw [handle_query_eq_error env st q e hq h]
    refine ⟨rfl, ?_, ?_⟩
    · intro e2 he2
      injection he2 with h3
      subst h3
      simp
    · intro r hr
      exact Except.noConfusion hr
  | ok r0 =>
    rw [handle_query_eq_ok env st q r0 hq h]
    refine ⟨rfl, ?_, ?_⟩
    · intro e he
      exact Except.noConfusion he
    · intro r hr
      injection hr with h3
      subst h3
      refine List.mem_cons_of_mem _ (List.mem_append_right _ ?_)
      unfold render_new_message
      exact List.mem_append_left _ (List.mem_singleton.mpr rfl)

/-- Witness for C3 at a concrete failing pipeline call. -/
theorem handle_query_cleanup_witness :
    (handle_query envPipelineFail stEx "hi").1.is_processing = false ∧
    (∀ e, envPipelineFail.process_query stEx.agents "hi" = Except.error e →
      UIEvent.errorMsg ("Error: " ++ e) ∈ (handle_query envPipelineFail stEx "hi").2) ∧
    (∀ r, envPipelineFail.process_query stEx.agents "hi" = Except.ok r →
      UIEvent.markdown "assistant" r.response_text ∈ (handle_query envPipelineFail stEx "hi").2) :=
  handle_query_cleanup envPipelineFail stEx "hi" (by decide)

/-- C7: when the immediate render of the new assistant message raises
during chart construction or during display, the exception is caught at
the render call site and shown as an inline error, and the just-appended
assistant history entry is not rolled back: it remains in `chat_history`
unchanged. -/
theorem render_failure_no_rollback (env : Env) (st : SessionState) (q : String)
    (r : PipelineResult) (e : String) (cd : List (List (String × Cell)))
    (ci : ChartInfo) (hq : q ≠ "")
    (h : env.process_query st.agents q = Except.ok r)
    (hcd : (build_assistant_message env r).1.chart_data = some cd)
    (hci : (build_assistant_message env r).1.chart_info = some ci)
    (herr : env.create_visualization (recordsToDataFrame cd) ci.x_column ci.y_columns
              (ci.chart_type.getD "line") = Except.error e ∨
            ∃ c, env.create_visualization (recordsToDataFrame cd) ci.x_column ci.y_columns
              (ci.chart_type.getD "line") = Except.ok c ∧
              env.display_visualization c = Except.error e) :
    UIEvent.errorMsg ("Error displaying visualization: " ++ e) ∈ (handle_query env st q).2 ∧
    (handle_query env st q).1.chat_history =
      st.chat_history ++ [{ role := Role.user, text := q },
        (build_assistant_message env r).1] := by
  rw [handle_query_eq_ok env st q r hq h]
  refine ⟨?_, rfl⟩
  refine List.mem_cons_of_mem _ (List.mem_append_right _ ?_)
  simp only [render_new_message, hcd, hci, List.singleton_append]
  rcases herr with h1 | ⟨c, h1, h2⟩
  · simp [h1]
  · simp [h1, h2]

/-- Witness for C7: a turn whose chart builder raises. -/
theorem render_failure_no_rollback_witness :
    UIEvent.errorMsg ("Error displaying visualization: " ++ "bad chart") ∈
      (handle_query envRenderFail stEx "show my runs").2 ∧
    (handle_query envRenderFail stEx "show my runs").1.chat_history =
      stEx.chat_history ++ [{ role := Role.user, text := "show my runs" },
        (build_assistant_message envRenderFail rEx).1] :=
  render_failure_no_rollback envRenderFail stEx "show my runs" rEx "bad chart" cdW ciW
    (by decide) rfl (by decide) (by decide) (Or.inl rfl)

/-- C4 (code-bug evidence): at a concrete turn whose x-column "date"
matches the date/time heuristic and whose datetime coercion succeeds and
changes the values, the persisted `chart_data` still holds the raw
pre-coercion record values: lines 174-180 of app.py coerce
`result["data"]` only after `to_dict("records")` was taken on line 167,
and the coerced frame (second component below) is never used again. -/
theorem date_coercion_not_persisted :
    containsSubstring (lowerString ciEx.x_column) "date" = true ∧
    envEx.to_datetime (dEx.getCol "date") =
      Except.ok [Cell.datetime "2024-01-01", Cell.datetime "2024-01-02"] ∧
    (build_assistant_message envEx rEx).2.data =
      some { cols := ["date", "distance"],
             rows := [[Cell.datetime "2024-01-01", Cell.int 5],
                      [Cell.datetime "2024-01-02", Cell.int 7]] } ∧
    (handle_query envEx stEx "show my runs").1.chat_history.map (fun m => m.chart_data) =
      [none, some [[("date", Cell.str "2024-01-01"), ("distance", Cell.int 5)],
                   [("date", Cell.str "2024-01-02"), ("distance", Cell.int 7)]]] := by
  decide

/-- C5 counterexample: a pipeline result with `success = false` but a
conversational classification leaves the status indicator at
"Query processed"/complete — not errored — and, because the chart block of
lines 154-181 never checks `success`, a chart is still attached to the
persisted message and rendered. -/
theorem success_false_status_counterexample :
    rC5.success = false ∧
    UIEvent.statusUpdate "Error executing query" "error" ∉
      (handle_query envC5 stEx "hello").2 ∧
    UIEvent.chartDisplayed 3 ∈ (handle_query envC5 stEx "hello").2 ∧
    (handle_query envC5 stEx "hello").1.chat_history.map (fun m => m.chart_info.isSome) =
      [false, true] := by
  decide

/-- C5 (amended): for every pipeline result with `success = false`, the
response text is still rendered and persisted; the status indicator is
marked errored exactly when the classification is SQL or VIZ; and the
success label and the row-count diagnostic are never emitted for the turn.
(Chart attachment and rendering are independent of the success flag.) -/
theorem success_false_soft_failure (env : Env) (st : SessionState) (q : String)
    (r : PipelineResult) (hq : q ≠ "")
    (h : env.process_query st.agents q = Except.ok r) (hs : r.success = false) :
    UIEvent.markdown "assistant" r.response_text ∈ (handle_query env st q).2 ∧
    (handle_query env st q).1.chat_history =
      st.chat_history ++ [{ role := Role.user, text := q },
        (build_assistant_message env r).1] ∧
    (build_assistant_message env r).1.text = r.response_text ∧
    ((UIEvent.statusUpdate "Error executing query" "error" ∈ (handle_query env st q).2) ↔
      (r.classification.query_type = QueryType.SQL ∨
       r.classification.query_type = QueryType.VIZ)) ∧
    UIEvent.statusUpdate "Query processed successfully!" "complete" ∉
      (handle_query env st q).2 ∧
    (∀ n, UIEvent.rowCount n ∉ (handle_query env st q).2) := by
  rw [handle_query_eq_ok env st q r hq h]
  refine ⟨?_, rfl, (build_assistant_message_base env r).2.1, ?_, ?_, ?_⟩
  · refine List.mem_cons_of_mem _ (List.mem_append_right _ ?_)
    unfold render_new_message
    exact List.mem_append_left _ (List.mem_singleton.mpr rfl)
  · constructor
    · intro hmem
      rcases List.mem_cons.mp hmem with heq | hmem2
      · simp at heq
      · rcases List.mem_append.mp hmem2 with hsb | hrn
        · by_cases hqt : (r.classification.query_type = QueryType.SQL ∨
              r.classification.query_type = QueryType.VIZ)
          · exact hqt
          · rw [status_block_of_not_sqlviz env r hqt] at hsb
            simp at hsb
        · exact absurd rfl ((render_new_message_no_status_events env _ _ _ hrn).1 _ _)
    · intro hqt
      refine List.mem_cons_of_mem _ (List.mem_append_left _ ?_)
      rw [status_block_of_failure env r hqt hs]
      simp
  · intro hmem
    rcases List.mem_cons.mp hmem with heq | hmem2
    · simp at heq
    · rcases List.mem_append.mp hmem2 with hsb | hrn
      · rcases status_block_failure_shapes env r hs _ hsb with h1 | h1 | ⟨sq, h1⟩ | h1 | h1 <;>
          simp at h1
      · exact absurd rfl ((render_new_message_no_status_events env _ _ _ hrn).1 _ _)
  · intro n hmem
    rcases List.mem_cons.mp hmem with heq | hmem2
    · simp at heq
    · rcases List.mem_append.mp hmem2 with hsb | hrn
      · rcases status_block_failure_shapes env r hs _ hsb with h1 | h1 | ⟨sq, h1⟩ | h1 | h1 <;>
          simp at h1
      · exact absurd rfl ((render_new_message_no_status_events env _ _ _ hrn).2.1 _)

/-- Witness for the amended C5 at the concrete soft-failure turn. -/
theorem success_false_soft_failure_witness :
    UIEvent.markdown "assistant" rC5.response_text ∈ (handle_query envC5 stEx "hello").2 ∧
    (handle_query envC5 stEx "hello").1.chat_history =
      stEx.chat_history ++ [{ role := Role.user, text := "hello" },
        (build_assistant_message envC5 rC5).1] ∧
    (build_assistant_message envC5 rC5).1.text = rC5.response_text ∧
    ((UIEvent.statusUpdate "Error executing query" "error" ∈
        (handle_query envC5 stEx "hello").2) ↔
      (rC5.classification.query_type = QueryType.SQL ∨
       rC5.classification.query_type = QueryType.VIZ)) ∧
    UIEvent.statusUpdate "Query processed successfully!" "complete" ∉
      (handle_query envC5 stEx "hello").2 ∧
    (∀ n, UIEvent.rowCount n ∉ (handle_query envC5 stEx "hello").2) :=
  success_false_soft_failure envC5 stEx "hello" rC5 (by decide) rfl rfl

/-- C6 counterexample: a conversational pipeline result that carries a SQL
string still gets its `sql_query` value persisted on the assistant message
(line 151 copies `result.get("sql_query")` unconditionally), refuting
"carries sql_query only when the classification required SQL". -/
theorem sql_query_persisted_counterexample :
    rC6.classification.query_type = QueryType.CONVERSATIONAL ∧
    (handle_query envC6 stEx "hello").1.chat_history.map (fun m => (m.role, m.sql_query)) =
      [(Role.user, none), (Role.assistant, some "SELECT 1")] := by
  decide

/-- C6 (amended): the controller surfaces the SQL text and the row-count
diagnostic in the status area only when the classification is SQL or VIZ,
while the persisted assistant message's `sql_query` always mirrors the
pipeline result's `sql_query`, regardless of classification. -/
theorem sql_surfacing_classification (env : Env) (st : SessionState) (q : String)
    (r : PipelineResult) (hq : q ≠ "")
    (h : env.process_query st.agents q = Except.ok r) :
    ((UIEvent.sqlHeader ∈ (handle_query env st q).2 ∨
      (∃ sq, UIEvent.sqlCode sq ∈ (handle_query env st q).2) ∨
      (∃ n, UIEvent.rowCount n ∈ (handle_query env st q).2)) →
      (r.classification.query_type = QueryType.SQL ∨
       r.classification.query_type = QueryType.VIZ)) ∧
    (build_assistant_message env r).1.sql_query = r.sql_query ∧
    (handle_query env st q).1.chat_history =
      st.chat_history ++ [{ role := Role.user, text := q },
        (build_assistant_message env r).1] := by
  rw [handle_query_eq_ok env st q r hq h]
  refine ⟨?_, (build_assistant_message_base env r).2.2, rfl⟩
  intro hev
  by_contra hqt
  have hsb := status_block_of_not_sqlviz env r hqt
  rcases hev with hmem | ⟨sq, hmem⟩ | ⟨n, hmem⟩
  · rcases List.mem_cons.mp hmem with heq | hmem2
    · simp at heq
    · rcases List.mem_append.mp hmem2 with hsb2 | hrn
      · rw [hsb] at hsb2
        simp at hsb2
      · exact absurd rfl ((render_new_message_no_status_events env _ _ _ hrn).2.2.1)
  · rcases List.mem_cons.mp hmem with heq | hmem2
    · simp at heq
    · rcases List.mem_append.mp hmem2 with hsb2 | hrn
      · rw [hsb] at hsb2
        simp at hsb2
      · exact absurd rfl ((render_new_message_no_status_events env _ _ _ hrn).2.2.2 sq)
  · rcases List.mem_cons.mp hmem with heq | hmem2
    · simp at heq
    · rcases List.mem_append.mp hmem2 with hsb2 | hrn
      · rw [hsb] at hsb2
        simp at hsb2
      · exact absurd rfl ((render_new_message_no_status_events env _ _ _ hrn).2.1 n)

theorem flatMap_eq_map_of_singleton {α β : Type} (f : α → List β) (g : α → β)
    (h : ∀ a, f a = [g a]) : ∀ l : List α, l.flatMap f = l.map g := by
  intro l
  induction l with
  | nil => rfl
  | cons a l ih => simp [h, ih]

/-- C8: during a history replay with `is_processing = true`, the renderer
emits exactly each stored message's text and performs no chart validation,
construction, or rendering; with `is_processing = false`, each stored
message's text is shown and every assistant message carrying both chart
fields is re-validated: a failed validation emits its warning, and a
successful validation whose rebuild and display succeed emits the chart. -/
theorem render_history_processing_behavior (env : Env) (st : SessionState) :
    (st.is_processing = true →
      render_history env st =
        st.chat_history.map (fun m => UIEvent.markdown m.role.str m.text)) ∧
    (st.is_processing = false →
      ∀ m ∈ st.chat_history,
        UIEvent.markdown m.role.str m.text ∈ render_history env st ∧
        ∀ cd ci, m.role = Role.assistant → m.chart_data = some cd →
          m.chart_info = some ci →
          ∀ v, v = validate_chart_inputs (some (recordsToDataFrame cd))
              ci.x_column ci.y_columns →
            ((v.1 = false → UIEvent.warning v.2.2 ∈ render_history env st) ∧
             (∀ c, v.1 = true →
                env.create_visualization (recordsToDataFrame cd) ci.x_column v.2.1
                  (ci.chart_type.getD "line") = Except.ok c →
                env.display_visualization c = Except.ok () →
                UIEvent.chartDisplayed c ∈ render_history env st))) := by
  constructor
  · intro hp
    unfold render_history
    rw [hp]
    exact flatMap_eq_map_of_singleton _ _
      (fun m => by simp [render_history_message]) st.chat_history
  · intro hp m hm
    have hmem : ∀ x ∈ render_history_message env false m, x ∈ render_history env st := by
      intro x hx
      unfold render_history
      rw [hp]
      exact List.mem_flatMap.mpr ⟨m, hm, hx⟩
    constructor
    · apply hmem
      simp [render_history_message]
    · intro cd ci hrole hcd hci v hv
      constructor
      · intro hval
        subst hv
        apply hmem
        simp only [render_history_message, hrole, hcd, hci]
        simp [hval]
      · intro c hval hc hd
        subst hv
        apply hmem
        simp only [render_history_message, hrole, hcd, hci]
        simp [hval, hc, hd]

/-- Witness for C8: replaying a stored chart message while processing
emits only its text; replaying it while idle re-renders its chart. -/
theorem render_history_processing_behavior_witness :
    render_history envEx stWtrue =
      stWtrue.chat_history.map (fun m => UIEvent.markdown m.role.str m.text) ∧
    UIEvent.chartDisplayed 7 ∈ render_history envEx stW := by
  constructor
  · exact (render_history_processing_behavior envEx stWtrue).1 rfl
  · exact (((render_history_processing_behavior envEx stW).2 rfl msgW
      (by simp [stW])).2 cdW ciW rfl rfl rfl _ rfl).2 7 (by decide) rfl rfl

/-- Witness for the amended C6 at a concrete SQL-bearing VIZ turn. -/
theorem sql_surfacing_classification_witness :
    ((UIEvent.sqlHeader ∈ (handle_query envEx stEx "show my runs").2 ∨
      (∃ sq, UIEvent.sqlCode sq ∈ (handle_query envEx stEx "show my runs").2) ∨
      (∃ n, UIEvent.rowCount n ∈ (handle_query envEx stEx "show my runs").2)) →
      (rEx.classification.query_type = QueryType.SQL ∨
       rEx.classification.query_type = QueryType.VIZ)) ∧
    (build_assistant_message envEx rEx).1.sql_query = rEx.sql_query ∧
    (handle_query envEx stEx "show my runs").1.chat_history =
      stEx.chat_history ++ [{ role := Role.user, text := "show my runs" },
        (build_assistant_message envEx rEx).1] :=
  sql_surfacing_classification envEx stEx "show my runs" rEx (by decide) rfl

end StravaTalk
